import Mathlib

/-!
Verification of the dialect-translation core (Responses ⇄ Chat ⇄ Messages)
of the gateway, shallowly embedded from the Go sources in
`relay/channel/openai_responses` and `relay/channel/claude`.

Strings that flow through the Content Normalizer are modelled at the
granularity Go's `for range` loop sees them: a sequence of units, each of
which is either a correctly encoded Unicode scalar value or a byte that is
not part of any valid UTF-8 encoding (Go decodes such a byte as U+FFFD with
width 1).  Plain `String` is used where encoding validity plays no role
(event types, statuses, deltas, identifiers).
-/

set_option autoImplicit false

/-- One unit of a Go string as seen by `for range`: either a correctly
encoded Unicode scalar value, or a single byte that is not part of any
valid UTF-8 encoding. -/
inductive Rune8 where
  | valid (c : Char)
  | invalidByte
  deriving DecidableEq, Repr

/-- A Go string, as the sequence of its range-units. -/
abbrev GoStr := List Rune8

/-- The replacement character U+FFFD that Go yields when range-decoding an
invalid byte. -/
def replacementChar : Char := Char.ofNat 0xFFFD

/-- Go `for range` decoding of one unit: a valid unit decodes to its scalar
value, an invalid byte decodes to U+FFFD. -/
def Rune8.decode : Rune8 → Char
  | .valid c => c
  | .invalidByte => replacementChar

/-- Whether a unit is a correctly encoded scalar value. -/
def Rune8.isValidUnit : Rune8 → Bool
  | .valid _ => true
  | .invalidByte => false

/-- Go `utf8.ValidString` / `utf8.Valid`: every byte of the string belongs
to a valid UTF-8 encoding, i.e. no invalid unit occurs. -/
def utf8ValidString (s : GoStr) : Bool :=
  s.all Rune8.isValidUnit

/-- Go `utf8.ValidRune`: the code point is neither a surrogate nor beyond
U+10FFFF. -/
def utf8ValidRune (c : Char) : Bool :=
  decide (c.toNat < 0xD800 ∨ (0xDFFF < c.toNat ∧ c.toNat ≤ 0x10FFFF))

/-- Go `unicode.IsControl`: true exactly for the Latin-1 control code
points (C0 controls `0x00`-`0x1F`, DEL `0x7F`, and C1 controls
`0x80`-`0x9F`); code points above `0xFF` are never control for Go. -/
def goIsControl (c : Char) : Bool :=
  decide (c.toNat < 0x20 ∨ (0x7F ≤ c.toNat ∧ c.toNat ≤ 0x9F))

/-- Go `strings.ContainsRune "\r\n\t" r`: the whitelisted whitespace
control characters. -/
def isAllowedWhitespace (c : Char) : Bool :=
  c = '\r' || c = '\n' || c = '\t'

/-- The per-unit body of the range loop of `cleanInvalidUTF8Chars` (both
packages carry a textually identical copy of the function): range-decode
the unit, skip an invalid rune or a disallowed control character, and write
the surviving rune back out (so an invalid byte, range-decoded as U+FFFD,
is written as the valid scalar U+FFFD). -/
def cleanStep (u : Rune8) : Option Rune8 :=
  if !utf8ValidRune u.decode then none
  else if goIsControl u.decode && !isAllowedWhitespace u.decode then none
  else some (.valid u.decode)

namespace openai_responses

/-- Embeds `isValidUTF8String` from `relay/channel/openai_responses/convert.go`
(lines 16-27): the range loop rejects an invalid rune or a control character
outside CR/LF/TAB, then the byte-level `utf8.ValidString` check runs. -/
def isValidUTF8String (s : GoStr) : Bool :=
  (s.all fun u =>
    utf8ValidRune u.decode && !(goIsControl u.decode && !isAllowedWhitespace u.decode))
  && utf8ValidString s

/-- Embeds `isValidUTF8Bytes` from `openai_responses/convert.go` (lines 30-32). -/
def isValidUTF8Bytes (b : GoStr) : Bool :=
  utf8ValidString b

/-- Embeds `cleanInvalidUTF8Chars` from `relay/channel/openai_responses/convert.go`
(lines 35-53). -/
def cleanInvalidUTF8Chars (s : GoStr) : GoStr :=
  s.filterMap cleanStep

/-- Embeds `cleanInvalidUTF8Bytes` from `openai_responses/convert.go`
(lines 56-59), i.e. `strings.ToValidUTF8(string(b), "")`: invalid bytes are
dropped, everything else is kept. -/
def cleanInvalidUTF8Bytes (b : GoStr) : GoStr :=
  b.filter Rune8.isValidUnit

end openai_responses

namespace claude

/-- Embeds `isValidUTF8String` from `relay/channel/claude/convert_responses.go`
(lines 24-26): only `utf8.ValidString`, with no control-character check. -/
def isValidUTF8String (s : GoStr) : Bool :=
  utf8ValidString s

/-- Embeds `isValidUTF8Bytes` from `claude/convert_responses.go` (lines 29-31). -/
def isValidUTF8Bytes (b : GoStr) : Bool :=
  utf8ValidString b

/-- Embeds `cleanInvalidUTF8Chars` from `claude/convert_responses.go`
(lines 34-52); the body is identical to the `openai_responses` copy. -/
def cleanInvalidUTF8Chars (s : GoStr) : GoStr :=
  s.filterMap cleanStep

/-- Embeds `cleanInvalidUTF8Bytes` from `claude/convert_responses.go`
(lines 55-58). -/
def cleanInvalidUTF8Bytes (b : GoStr) : GoStr :=
  b.filter Rune8.isValidUnit

end claude

/-- Modelled from the spec (§4.1 contract for `isValidText`): every code
point is valid and no control character other than CR, LF and TAB is
present.  Stated over the unit sequence: each unit must be a correctly
encoded scalar value that is not a disallowed control character. -/
def validTextSpec (s : GoStr) : Bool :=
  s.all fun u =>
    match u with
    | .valid c => !(goIsControl c && !isAllowedWhitespace c)
    | .invalidByte => false

/-- Lifts a Lean string into the unit-sequence model (all units valid). -/
def goStrOfString (s : String) : GoStr :=
  s.data.map Rune8.valid

/-- The content of a `dto.Message` after JSON unmarshalling: absent (Go
nil interface), a plain string, or structured (non-string) content.
Structured content is carried as the byte image `json.Marshal` produces
for it; in the model that marshal step is total, mirroring that
`json.Marshal` of decoded request data does not fail. -/
inductive MsgContent where
  | str (s : GoStr)
  | structured (marshalled : GoStr)
  deriving DecidableEq, Repr

/-- A `dto.Message`: a role and an optional content. -/
structure Message where
  role : String
  content : Option MsgContent
  deriving DecidableEq, Repr

/-- The first system-role entry of a message list, if any (helper used to
state properties of the extractors). -/
def firstSystemContent (ms : List Message) : Option (Option MsgContent) :=
  match ms with
  | [] => none
  | m :: rest => if m.role = "system" then some m.content else firstSystemContent rest

/-- Content of one translated input item.  The JSON marshalling of a plain
string is kept symbolic: `encodedString s` stands for the JSON string
encoding of `s`; structured bytes pass through as `rawJson`. -/
inductive InputContent where
  | encodedString (s : GoStr)
  | rawJson (j : GoStr)
  deriving DecidableEq, Repr

/-- A `dto.Input` item of a translated Responses request. -/
structure Input where
  type : String
  role : String
  content : Option InputContent
  deriving DecidableEq, Repr

/-- Error taxonomy of request translation: nil request, empty model name,
or the strict structured-content encoding failure ("generated JSON
contains invalid UTF-8 characters"). -/
inductive ConvError where
  | nilRequest
  | emptyModel
  | encodingError
  deriving DecidableEq, Repr

/-- The slice of `dto.GeneralOpenAIRequest` the embedded translators read:
model, stream flag, messages and the two token-limit fields.  Scalar
fields that are merely copied through unchanged (temperature, top_p, user,
reasoning effort) and the opaquely re-encoded tool fields are not
modelled. -/
structure GeneralOpenAIRequest where
  model : String
  stream : Bool
  messages : List Message
  maxTokens : Int
  maxCompletionTokens : Int
  deriving DecidableEq, Repr

/-- The slice of a translated `dto.OpenAIResponsesRequest` the claims
speak about.  `instructions` carries the extracted system text (the Go
code additionally JSON-encodes it, a step that cannot fail and is elided);
`none` means the field is absent from the request. -/
structure OpenAIResponsesRequest where
  model : String
  stream : Bool
  maxOutputTokens : Int
  instructions : Option GoStr
  input : Option (List Input)
  deriving DecidableEq, Repr

namespace openai_responses

/-- Embeds `extractSystemMessage` from `relay/channel/openai_responses/convert.go`
(lines 181-196): the first system-role entry wins; plain-string content is
returned as is (no sanitization), structured content is returned as its
marshalled bytes (no sanitization); nil content marshals to the literal
string "null". -/
def extractSystemMessage (ms : List Message) : GoStr :=
  match ms with
  | [] => []
  | m :: rest =>
    if m.role = "system" then
      match m.content with
      | some (.str s) => s
      | some (.structured j) => j
      | none => goStrOfString "null"
    else extractSystemMessage rest

/-- Embeds `convertMessagesToInputs` from `openai_responses/convert.go`
(lines 204-254): system entries are skipped; plain-string content is
cleaned when `isValidUTF8String` (the control-character-aware variant)
rejects it, then JSON-encoded; structured content must marshal to valid
UTF-8 or the conversion aborts with the encoding error. -/
def convertMessagesToInputs (ms : List Message) : Except ConvError (List Input) :=
  match ms with
  | [] => .ok []
  | m :: rest =>
    if m.role = "system" then convertMessagesToInputs rest
    else
      let content? : Except ConvError (Option InputContent) :=
        match m.content with
        | none => .ok none
        | some (.str s) =>
          .ok (some (.encodedString (if isValidUTF8String s then s else cleanInvalidUTF8Chars s)))
        | some (.structured j) =>
          if isValidUTF8Bytes j then .ok (some (.rawJson j)) else .error .encodingError
      match content? with
      | .error e => .error e
      | .ok c =>
        match convertMessagesToInputs rest with
        | .error e => .error e
        | .ok tail => .ok ({ type := "message", role := m.role, content := c } :: tail)

/-- Embeds `ChatCompletionsToResponsesRequest` from
`openai_responses/convert.go` (lines 69-174): nil request and empty model
fail; `max_tokens` wins over `max_completion_tokens`; the instructions
field is set only when the extracted system message is non-empty; the
input field is set only when at least one non-system message exists. -/
def ChatCompletionsToResponsesRequest (req : Option GeneralOpenAIRequest)
    (upstreamModelName : String) : Except ConvError OpenAIResponsesRequest :=
  match req with
  | none => .error .nilRequest
  | some r =>
    if r.model = "" then .error .emptyModel
    else
      let systemMessage := extractSystemMessage r.messages
      match convertMessagesToInputs r.messages with
      | .error e => .error e
      | .ok inputs =>
        .ok { model := upstreamModelName
              stream := r.stream
              maxOutputTokens :=
                if r.maxTokens > 0 then r.maxTokens
                else if r.maxCompletionTokens > 0 then r.maxCompletionTokens
                else 0
              instructions := if systemMessage = [] then none else some systemMessage
              input := if inputs = [] then none else some inputs }

end openai_responses

namespace claude

/-- Embeds `extractSystemMessageFromClaude` from
`relay/channel/claude/convert_responses.go` (lines 167-192): the first
system-role entry wins; plain-string content is cleaned only when the
claude-package `isValidUTF8String` (UTF-8 validity only) rejects it;
structured content is cleaned only when its marshalled bytes are invalid
UTF-8; nil content marshals to the literal string "null". -/
def extractSystemMessageFromClaude (ms : List Message) : GoStr :=
  match ms with
  | [] => []
  | m :: rest =>
    if m.role = "system" then
      match m.content with
      | some (.str s) => if isValidUTF8String s then s else cleanInvalidUTF8Chars s
      | some (.structured j) => if isValidUTF8Bytes j then j else cleanInvalidUTF8Bytes j
      | none => goStrOfString "null"
    else extractSystemMessageFromClaude rest

/-- Embeds `convertClaudeMessagesToInputs` from
`claude/convert_responses.go` (lines 200-250); same shape as the
`openai_responses` variant but with the claude-package validity check
(UTF-8 only) on plain strings. -/
def convertClaudeMessagesToInputs (ms : List Message) : Except ConvError (List Input) :=
  match ms with
  | [] => .ok []
  | m :: rest =>
    if m.role = "system" then convertClaudeMessagesToInputs rest
    else
      let content? : Except ConvError (Option InputContent) :=
        match m.content with
        | none => .ok none
        | some (.str s) =>
          .ok (some (.encodedString (if isValidUTF8String s then s else cleanInvalidUTF8Chars s)))
        | some (.structured j) =>
          if isValidUTF8Bytes j then .ok (some (.rawJson j)) else .error .encodingError
      match content? with
      | .error e => .error e
      | .ok c =>
        match convertClaudeMessagesToInputs rest with
        | .error e => .error e
        | .ok tail => .ok ({ type := "message", role := m.role, content := c } :: tail)

/-- Embeds `ClaudeMessagesToResponsesRequest` from
`claude/convert_responses.go` (lines 68-160). -/
def ClaudeMessagesToResponsesRequest (req : Option GeneralOpenAIRequest)
    (upstreamModelName : String) : Except ConvError OpenAIResponsesRequest :=
  match req with
  | none => .error .nilRequest
  | some r =>
    if r.model = "" then .error .emptyModel
    else
      let systemMessage := extractSystemMessageFromClaude r.messages
      match convertClaudeMessagesToInputs r.messages with
      | .error e => .error e
      | .ok inputs =>
        .ok { model := upstreamModelName
              stream := r.stream
              maxOutputTokens :=
                if r.maxTokens > 0 then r.maxTokens
                else if r.maxCompletionTokens > 0 then r.maxCompletionTokens
                else 0
              instructions := if systemMessage = [] then none else some systemMessage
              input := if inputs = [] then none else some inputs }

/-- Embeds `shouldRouteToResponses` from `relay/channel/claude/adaptor.go`
(lines 99-114). -/
def shouldRouteToResponses (modelName : String) : Bool :=
  modelName = "claude-3.5-sonnet" || modelName = "claude-3-opus" || modelName = "claude-3-haiku"

/-- Outcome of the Claude-channel smart router: the translated Responses
request (relay mode switched), the native Claude conversion of the
original request (`RequestOpenAI2ClaudeComplete` /
`RequestOpenAI2ClaudeMessage` live outside the shown sources and are
represented by the request handed to them), or an error returned to the
caller. -/
inductive RouterResult where
  | routed (r : OpenAIResponsesRequest)
  | native (req : GeneralOpenAIRequest)
  | error (e : ConvError)
  deriving DecidableEq, Repr

/-- Whether the router fell back to (or stayed on) the native path. -/
def RouterResult.isNative : RouterResult → Bool
  | .native _ => true
  | _ => false

/-- Embeds `ConvertOpenAIRequest` from `relay/channel/claude/adaptor.go`
(lines 116-152): a nil request is an error returned to the caller; a
routed request whose translation fails falls back to the native Claude
conversion; a non-routed request takes the native path directly. -/
def ConvertOpenAIRequest (originModelName upstreamModelName : String)
    (request : Option GeneralOpenAIRequest) : RouterResult :=
  match request with
  | none => .error .nilRequest
  | some r =>
    if shouldRouteToResponses originModelName then
      match ClaudeMessagesToResponsesRequest (some r) upstreamModelName with
      | .ok rr => .routed rr
      | .error _ => .native r
    else .native r

end claude

/-- The slice of a `dto.ClaudeRequest` the Responses-channel adaptor
inspects before handing it to its translator. -/
structure ClaudeRequest where
  model : String
  deriving DecidableEq, Repr

namespace openai_responses

/-- Embeds `ConvertClaudeRequest` of the Responses-channel adaptor (the
unnamed adaptor source, lines 69-93), parameterized by the Claude-request
translator it calls: a nil request and an empty model fail before
translation, and a translation failure is returned (wrapped) to the
caller — this router has no native fallback path. -/
def ConvertClaudeRequest
    (translate : ClaudeRequest → Except ConvError OpenAIResponsesRequest)
    (request : Option ClaudeRequest) : Except ConvError OpenAIResponsesRequest :=
  match request with
  | none => .error .nilRequest
  | some r => if r.model = "" then .error .emptyModel else translate r

/-- Embeds `extractFinishReason` from `openai_responses/convert.go`
(lines 337-350); a Go switch on the status string. -/
def extractFinishReason (status : String) : String :=
  if status = "completed" then "stop"
  else if status = "incomplete" then "length"
  else if status = "failed" then "error"
  else if status = "cancelled" then "stop"
  else "stop"

/-- Embeds `extractClaudeStopReason` from
`openai_responses/claude_handler.go` (lines 239-248): only `completed` and
`incomplete` have dedicated cases; everything else is the default
`end_turn`. -/
def extractClaudeStopReason (status : String) : String :=
  if status = "completed" then "end_turn"
  else if status = "incomplete" then "max_tokens"
  else "end_turn"

end openai_responses

namespace claude

/-- Embeds `extractFinishReasonFromResponses` from
`claude/convert_responses.go` (lines 333-346); textually the same switch
as `extractFinishReason`. -/
def extractFinishReasonFromResponses (status : String) : String :=
  if status = "completed" then "stop"
  else if status = "incomplete" then "length"
  else if status = "failed" then "error"
  else if status = "cancelled" then "stop"
  else "stop"

end claude

/-- Usage object attached to a Responses snapshot
(`dto.ResponsesResponse.Usage`): input/output/total token counts and the
optional cached-token detail (`InputTokensDetails.CachedTokens`). -/
structure ResponsesUsage where
  inputTokens : Int := 0
  outputTokens : Int := 0
  totalTokens : Int := 0
  cachedTokens : Option Int := none
  deriving DecidableEq, Repr

/-- The response snapshot carried by a stream event
(`dto.ResponsesStreamResponse.Response`). -/
structure ResponsesSnapshot where
  id : String := ""
  model : String := ""
  createdAt : Int := 0
  status : String := ""
  usage : Option ResponsesUsage := none
  deriving DecidableEq, Repr

/-- The output-item snapshot carried by a stream event
(`dto.ResponsesStreamResponse.Item`). -/
structure ResponsesItem where
  type : String := ""
  role : String := ""
  deriving DecidableEq, Repr

/-- A parsed backend stream event (`dto.ResponsesStreamResponse`): event
type, optional response snapshot, optional item snapshot, delta string. -/
structure ResponsesStreamResponse where
  type : String := ""
  response : Option ResponsesSnapshot := none
  item : Option ResponsesItem := none
  delta : String := ""
  deriving DecidableEq, Repr

/-- The running usage counter (`dto.Usage`): prompt, completion, total and
the cached-token detail. -/
structure Usage where
  promptTokens : Int := 0
  completionTokens : Int := 0
  totalTokens : Int := 0
  cachedTokens : Int := 0
  deriving DecidableEq, Repr

/-- Delta part of one Chat-stream choice
(`dto.ChatCompletionsStreamResponseChoiceDelta`): optional role (empty
string when unset, matching the Go zero value) and optional content. -/
structure ChatCompletionsStreamResponseChoiceDelta where
  role : String := ""
  content : Option String := none
  deriving DecidableEq, Repr

/-- One Chat-stream choice (`dto.ChatCompletionsStreamResponseChoice`). -/
structure ChatCompletionsStreamResponseChoice where
  index : Nat := 0
  delta : ChatCompletionsStreamResponseChoiceDelta := {}
  finishReason : Option String := none
  deriving DecidableEq, Repr

/-- One emitted Chat-stream frame (`dto.ChatCompletionsStreamResponse`). -/
structure ChatCompletionsStreamResponse where
  id : String := ""
  object : String := ""
  created : Int := 0
  model : String := ""
  choices : List ChatCompletionsStreamResponseChoice := []
  usage : Option ResponsesUsage := none
  deriving DecidableEq, Repr

/-- Usage object of an emitted Claude frame (`dto.ClaudeUsage`). -/
structure ClaudeUsage where
  inputTokens : Int := 0
  outputTokens : Int := 0
  deriving DecidableEq, Repr

/-- The slice of `dto.ClaudeMediaMessage` the embedded converter writes:
type, id, model, role, text and stop reason. -/
structure ClaudeMediaMessage where
  type : String := ""
  id : String := ""
  model : String := ""
  role : String := ""
  text : Option String := none
  stopReason : Option String := none
  deriving DecidableEq, Repr

/-- One emitted Claude frame (`dto.ClaudeResponse`), as produced by
`ConvertResponsesStreamToClaudeStream`. -/
structure ClaudeResponse where
  type : String := ""
  message : Option ClaudeMediaMessage := none
  index : Option Nat := none
  contentBlock : Option ClaudeMediaMessage := none
  delta : Option ClaudeMediaMessage := none
  usage : Option ClaudeUsage := none
  deriving DecidableEq, Repr

namespace openai_responses

/-- Embeds `ConvertResponsesStreamToChatStream` from
`relay/channel/openai_responses/convert.go` (lines 359-441): the current
id is taken from the snapshot when it carries a non-empty one, else from
the caller; an `output_text.delta` event with non-empty delta yields one
content choice; an `output_item.added` event with an assistant item yields
one role-announcing choice; a `response.done` event with a snapshot yields
one terminating choice with the mapped finish reason and the snapshot
usage; everything else yields nothing. -/
def ConvertResponsesStreamToChatStream (e : ResponsesStreamResponse)
    (responseID : String) (model : String) : Option ChatCompletionsStreamResponse :=
  let currentID :=
    match e.response with
    | some r => if r.id ≠ "" then r.id else responseID
    | none => responseID
  let created :=
    match e.response with
    | some r => r.createdAt
    | none => 0
  if e.type = "response.output_text.delta" then
    if e.delta ≠ "" then
      some { id := currentID, object := "chat.completion.chunk", created := created
             model := model
             choices := [{ index := 0, delta := { content := some e.delta } }] }
    else none
  else if e.type = "response.output_item.added" then
    match e.item with
    | some it =>
      if it.role = "assistant" then
        some { id := currentID, object := "chat.completion.chunk", created := created
               model := model
               choices := [{ index := 0
                             delta := { role := "assistant", content := some "" } }] }
      else none
    | none => none
  else if e.type = "response.done" then
    match e.response with
    | some r =>
      some { id := currentID, object := "chat.completion.chunk", created := created
             model := model
             choices := [{ index := 0, delta := {}
                           finishReason := some (extractFinishReason r.status) }]
             usage := r.usage }
    | none => none
  else none

end openai_responses

namespace claude

/-- Embeds `ConvertResponsesStreamToClaudeStream` from
`relay/channel/claude/convert_responses.go` (lines 530-615).  Note:
`content_block_stop` is produced only for `output_item.done`;
`response.done`/`response.completed` produce only the `message_delta`
frame, whose stop reason comes from `extractFinishReasonFromResponses`;
no `message_stop` frame is ever produced by this converter. -/
def ConvertResponsesStreamToClaudeStream (e : ResponsesStreamResponse)
    (responseID : String) (model : String) : Option ClaudeResponse :=
  if e.type = "response.created" then
    match e.response with
    | some r =>
      some { type := "message_start"
             message := some { type := "message", id := r.id, model := r.model
                               role := "assistant" }
             usage :=
               match r.usage with
               | some u => some { inputTokens := u.inputTokens
                                  outputTokens := u.outputTokens }
               | none => none }
    | none => none
  else if e.type = "response.output_item.added" then
    match e.item with
    | some it =>
      if it.role = "assistant" then
        some { type := "content_block_start", index := some 0
               contentBlock := some { type := "text", text := some "" } }
      else none
    | none => none
  else if e.type = "response.output_text.delta" ∨ e.type = "response.content_part.delta" then
    if e.delta ≠ "" then
      some { type := "content_block_delta", index := some 0
             delta := some { type := "text_delta", text := some e.delta } }
    else none
  else if e.type = "response.output_item.done" then
    some { type := "content_block_stop", index := some 0 }
  else if e.type = "response.done" ∨ e.type = "response.completed" then
    match e.response with
    | some r =>
      some { type := "message_delta"
             delta := some { stopReason := some (extractFinishReasonFromResponses r.status) }
             usage :=
               match r.usage with
               | some u => some { inputTokens := u.inputTokens
                                  outputTokens := u.outputTokens }
               | none => none }
    | none => none
  else none

end claude

/-- Embeds the final usage reconciliation shared verbatim by the three
stream handlers (`openai_responses/claude_handler.go` lines 177-192, the
unnamed chat handler lines 424-437, `claude/convert_responses.go` lines
425-438): zero backend completion tokens are replaced by the external
tokenizer count over the accumulated text when that text is non-empty;
zero prompt tokens with non-zero completion tokens fall back to the
request-context prompt count; the total is recomputed as
prompt + completion, discarding whatever total was reported before. -/
def reconcileUsage (countTokens : String → Int) (ctxPromptTokens : Int)
    (accText : String) (u : Usage) : Usage :=
  let u1 :=
    if u.completionTokens = 0 ∧ accText ≠ "" then
      { u with completionTokens := countTokens accText }
    else u
  let u2 :=
    if u1.promptTokens = 0 ∧ u1.completionTokens ≠ 0 then
      { u1 with promptTokens := ctxPromptTokens }
    else u1
  { u2 with totalTokens := u2.promptTokens + u2.completionTokens }

/-- Per-frame SSE output of the Messages-style stream handler in
`openai_responses/claude_handler.go` (the `sendClaude...` helpers, lines
250-330), carrying the payload each helper writes. -/
inductive ClaudeFrame where
  | messageStart (model : String)
  | contentBlockStart (index : Nat)
  | contentBlockDelta (index : Nat) (delta : String)
  | contentBlockStop (index : Nat)
  | messageDelta (stopReason : String) (outputTokens : Int)
  | messageStop
  deriving DecidableEq, Repr

/-- The per-stream conversion state of the Messages-style handler in
`claude_handler.go`: response id once known, message-start-sent flag,
running usage counter and accumulated output text. -/
structure ClaudeStreamState where
  responseID : String := ""
  messageStartSent : Bool := false
  usage : Usage := {}
  responseText : String := ""
  deriving DecidableEq, Repr

namespace openai_responses

/-- Embeds the usage update of the `response.done` branch of
`ResponsesToClaudeStreamHandler` (`claude_handler.go` lines 156-166): each
non-zero field of the terminal usage overwrites the counter. -/
def captureDoneUsage (u : Usage) (ou : Option ResponsesUsage) : Usage :=
  match ou with
  | none => u
  | some v =>
    let u1 := if v.inputTokens ≠ 0 then { u with promptTokens := v.inputTokens } else u
    let u2 := if v.outputTokens ≠ 0 then { u1 with completionTokens := v.outputTokens } else u1
    if v.totalTokens ≠ 0 then { u2 with totalTokens := v.totalTokens } else u2

/-- Embeds one iteration of the scanner body of
`ResponsesToClaudeStreamHandler` (`claude_handler.go` lines 117-172) on a
parsed event: update the response id, send the one-time
`message_start`/`content_block_start` pair once an id is known, send a
`content_block_delta` for a non-empty text delta (accumulating the text),
and on `response.done` with a snapshot send the closing triple (the stop
reason is the literal "end_turn") and capture the terminal usage. -/
def claudeStreamStep (model : String) (s : ClaudeStreamState)
    (e : ResponsesStreamResponse) : ClaudeStreamState × List ClaudeFrame :=
  let rid :=
    match e.response with
    | some r => if r.id ≠ "" then r.id else s.responseID
    | none => s.responseID
  let firstStart := !s.messageStartSent && rid ≠ ""
  let startFrames :=
    if firstStart then [ClaudeFrame.messageStart model, ClaudeFrame.contentBlockStart 0]
    else []
  let started := if firstStart then true else s.messageStartSent
  let isDelta := e.type = "response.output_text.delta" ∧ e.delta ≠ ""
  let deltaFrames := if isDelta then [ClaudeFrame.contentBlockDelta 0 e.delta] else []
  let text := if isDelta then s.responseText ++ e.delta else s.responseText
  let doneFrames :=
    if e.type = "response.done" then
      match e.response with
      | some r =>
        [ClaudeFrame.contentBlockStop 0,
         ClaudeFrame.messageDelta "end_turn"
           (match r.usage with | some u => u.outputTokens | none => 0),
         ClaudeFrame.messageStop]
      | none => []
    else []
  let usage :=
    if e.type = "response.done" then
      match e.response with
      | some r => captureDoneUsage s.usage r.usage
      | none => s.usage
    else s.usage
  ({ responseID := rid, messageStartSent := started, usage := usage, responseText := text },
   startFrames ++ deltaFrames ++ doneFrames)

/-- Embeds `ResponsesToClaudeStreamHandler` from `claude_handler.go`
(lines 97-193) over a list of parsed events: fold the scanner body and
reconcile the final usage. -/
def ResponsesToClaudeStreamHandler (countTokens : String → Int)
    (ctxPromptTokens : Int) (model : String)
    (events : List ResponsesStreamResponse) : List ClaudeFrame × Usage :=
  let final := events.foldl
    (fun (acc : ClaudeStreamState × List ClaudeFrame) e =>
      let step := claudeStreamStep model acc.1 e
      (step.1, acc.2 ++ step.2))
    ({}, [])
  (final.2, reconcileUsage countTokens ctxPromptTokens final.1.responseText final.1.usage)

end openai_responses

/-- Modelled from the spec (§3: the stream-event taxonomy names the
`output_item.done` tag; the constant `dto.ResponsesOutputTypeItemDone` is
declared outside the shown sources). -/
def ResponsesOutputTypeItemDone : String := "response.output_item.done"

/-- Modelled from the spec (§4.3: built-in tool invocation events carry a
recognized tool-call item type; the constant `dto.BuildInCallWebSearchCall`
is declared outside the shown sources). -/
def BuildInCallWebSearchCall : String := "web_search_call"

/-- The per-stream conversion state of the Chat-style handler
(`ResponsesToChatStreamHandler` of the unnamed handler source): response
id, running usage counter, accumulated text and the built-in web-search
call counter. -/
structure ChatStreamState where
  responseID : String := ""
  usage : Usage := {}
  responseText : String := ""
  webSearchCalls : Nat := 0
  deriving DecidableEq, Repr

namespace openai_responses

/-- Embeds the usage capture of the `response.completed` branch of
`ResponsesToChatStreamHandler` (unnamed handler source, lines 382-398):
each non-zero field of the terminal usage overwrites the counter, and a
present cached-token detail is copied unconditionally. -/
def chatCaptureUsage (u : Usage) (ou : Option ResponsesUsage) : Usage :=
  match ou with
  | none => u
  | some v =>
    let u1 := if v.inputTokens ≠ 0 then { u with promptTokens := v.inputTokens } else u
    let u2 := if v.outputTokens ≠ 0 then { u1 with completionTokens := v.outputTokens } else u1
    let u3 := if v.totalTokens ≠ 0 then { u2 with totalTokens := v.totalTokens } else u2
    match v.cachedTokens with
    | some ct => { u3 with cachedTokens := ct }
    | none => u3

/-- Embeds one iteration of the scanner body of
`ResponsesToChatStreamHandler` (unnamed handler source, lines 358-419) on
a parsed event: update the response id, emit whatever the converter
returns, then run the usage/statistics switch (`response.completed`
captures terminal usage, `response.output_text.delta` accumulates text,
`output_item.done` with a web-search item bumps the tool counter). -/
def chatStreamStep (model : String) (s : ChatStreamState)
    (e : ResponsesStreamResponse) : ChatStreamState × List ChatCompletionsStreamResponse :=
  let rid :=
    match e.response with
    | some r => if r.id ≠ "" then r.id else s.responseID
    | none => s.responseID
  let frames :=
    match ConvertResponsesStreamToChatStream e rid model with
    | some f => [f]
    | none => []
  if e.type = "response.completed" then
    match e.response with
    | some r => ({ s with responseID := rid, usage := chatCaptureUsage s.usage r.usage }, frames)
    | none => ({ s with responseID := rid }, frames)
  else if e.type = "response.output_text.delta" then
    ({ s with responseID := rid, responseText := s.responseText ++ e.delta }, frames)
  else if e.type = ResponsesOutputTypeItemDone then
    match e.item with
    | some it =>
      if it.type = BuildInCallWebSearchCall then
        ({ s with responseID := rid, webSearchCalls := s.webSearchCalls + 1 }, frames)
      else ({ s with responseID := rid }, frames)
    | none => ({ s with responseID := rid }, frames)
  else ({ s with responseID := rid }, frames)

/-- Embeds `ResponsesToChatStreamHandler` (unnamed handler source, lines
341-440) over a list of parsed events: fold the scanner body and reconcile
the final usage. -/
def ResponsesToChatStreamHandler (countTokens : String → Int)
    (ctxPromptTokens : Int) (model : String)
    (events : List ResponsesStreamResponse) :
    List ChatCompletionsStreamResponse × Usage :=
  let final := events.foldl
    (fun (acc : ChatStreamState × List ChatCompletionsStreamResponse) e =>
      let step := chatStreamStep model acc.1 e
      (step.1, acc.2 ++ step.2))
    ({}, [])
  (final.2, reconcileUsage countTokens ctxPromptTokens final.1.responseText final.1.usage)

end openai_responses

/-- A content block of a non-streaming output item
(`dto.ResponsesOutput.Content` entries). -/
structure ResponsesOutputContent where
  type : String := ""
  text : String := ""
  deriving DecidableEq, Repr

/-- A non-streaming output item (`dto.ResponsesOutput`). -/
structure ResponsesOutput where
  type : String := ""
  role : String := ""
  content : List ResponsesOutputContent := []
  deriving DecidableEq, Repr

namespace openai_responses

/-- Embeds `extractContentFromOutput` from
`relay/channel/openai_responses/convert.go` (lines 318-330): concatenate,
in order, the text of the content blocks whose type is exactly
`output_text` inside assistant-role message items. -/
def extractContentFromOutput (output : List ResponsesOutput) : String :=
  output.foldl
    (fun acc item =>
      if item.type = "message" ∧ item.role = "assistant" then
        item.content.foldl
          (fun a ci => if ci.type = "output_text" then a ++ ci.text else a) acc
      else acc)
    ""

end openai_responses

namespace openai_responses.legacy

/-- Embeds the older duplicated copy of `extractContentFromOutput` carried
in the same source file (lines 678-690 of the combined file): identical
except that the accepted block type tag is `text`. -/
def extractContentFromOutput (output : List ResponsesOutput) : String :=
  output.foldl
    (fun acc item =>
      if item.type = "message" ∧ item.role = "assistant" then
        item.content.foldl
          (fun a ci => if ci.type = "text" then a ++ ci.text else a) acc
      else acc)
    ""

end openai_responses.legacy

namespace claude

/-- Embeds `extractContentFromOutput` from
`relay/channel/claude/convert_responses.go` (lines 314-326); identical to
the `openai_responses` copy (type tag `output_text`). -/
def extractContentFromOutput (output : List ResponsesOutput) : String :=
  output.foldl
    (fun acc item =>
      if item.type = "message" ∧ item.role = "assistant" then
        item.content.foldl
          (fun a ci => if ci.type = "output_text" then a ++ ci.text else a) acc
      else acc)
    ""

end claude

/-- The in-order concatenation of the text of the content blocks carrying
the one given type tag (specification-side formulation used to
characterize the extractors). -/
def blockTextConcat (blockType : String) (content : List ResponsesOutputContent) : String :=
  match content with
  | [] => ""
  | ci :: rest =>
    (if ci.type = blockType then ci.text else "") ++ blockTextConcat blockType rest

/-- The in-order concatenation of `blockTextConcat` over the assistant-role
message items of an output list. -/
def assistantTextConcat (blockType : String) (output : List ResponsesOutput) : String :=
  match output with
  | [] => ""
  | i :: rest =>
    (if i.type = "message" ∧ i.role = "assistant" then blockTextConcat blockType i.content
     else "")
    ++ assistantTextConcat blockType rest

/-- The in-order concatenation of the text of the content blocks carrying
either textual type tag, `output_text` or `text`. -/
def blockTextUnionConcat (content : List ResponsesOutputContent) : String :=
  match content with
  | [] => ""
  | ci :: rest =>
    (if ci.type = "output_text" ∨ ci.type = "text" then ci.text else "")
    ++ blockTextUnionConcat rest

/-- Modelled from the spec (C7's wording): the in-order concatenation of
the text of all textual content blocks, accepting both type tags
`output_text` and `text`, inside assistant-role message items. -/
def extractContentSpec (output : List ResponsesOutput) : String :=
  match output with
  | [] => ""
  | i :: rest =>
    (if i.type = "message" ∧ i.role = "assistant" then blockTextUnionConcat i.content
     else "")
    ++ extractContentSpec rest

lemma utf8ValidRune_eq_true (c : Char) : utf8ValidRune c = true := by
  have h := c.valid
  unfold UInt32.isValidChar Nat.isValidChar at h
  simp only [utf8ValidRune, Char.toNat, decide_eq_true_eq]
  omega

lemma cleanStep_bind (u : Rune8) : (cleanStep u).bind cleanStep = cleanStep u := by
  have hd : Rune8.decode (Rune8.valid u.decode) = u.decode := rfl
  cases hgc : goIsControl u.decode <;> cases haw : isAllowedWhitespace u.decode <;>
    simp [cleanStep, utf8ValidRune_eq_true, hd, hgc, haw]

lemma clean_idem (s : GoStr) :
    openai_responses.cleanInvalidUTF8Chars (openai_responses.cleanInvalidUTF8Chars s)
      = openai_responses.cleanInvalidUTF8Chars s := by
  unfold openai_responses.cleanInvalidUTF8Chars
  rw [List.filterMap_filterMap]
  congr 1
  funext u
  exact cleanStep_bind u

lemma claude_clean_eq_openai (s : GoStr) :
    claude.cleanInvalidUTF8Chars s = openai_responses.cleanInvalidUTF8Chars s := rfl

lemma oai_isValid_eq_spec (s : GoStr) :
    openai_responses.isValidUTF8String s = validTextSpec s := by
  induction s with
  | nil => rfl
  | cons u t ih =>
    simp only [openai_responses.isValidUTF8String, validTextSpec, utf8ValidString,
      List.all_cons] at ih ⊢
    cases u with
    | valid c =>
      have hd : Rune8.decode (Rune8.valid c) = c := rfl
      have hv : Rune8.isValidUnit (Rune8.valid c) = true := rfl
      simp only [hd, hv, utf8ValidRune_eq_true c, Bool.true_and]
      rw [← ih, Bool.and_assoc]
    | invalidByte =>
      have h5 : Rune8.isValidUnit Rune8.invalidByte = false := rfl
      simp [h5]

/-- C9: `sanitize` (the `cleanInvalidUTF8Chars` function of both the
`openai_responses` and the `claude` package) is idempotent:
sanitizing an already-sanitized string changes nothing. -/
theorem c9_sanitize_idempotent (s : GoStr) :
    openai_responses.cleanInvalidUTF8Chars (openai_responses.cleanInvalidUTF8Chars s)
      = openai_responses.cleanInvalidUTF8Chars s
    ∧ claude.cleanInvalidUTF8Chars (claude.cleanInvalidUTF8Chars s)
      = claude.cleanInvalidUTF8Chars s := by
  refine ⟨clean_idem s, ?_⟩
  rw [claude_clean_eq_openai, claude_clean_eq_openai]
  exact clean_idem s

/-- C8 counterexample: the `claude` package's `isValidUTF8String` accepts
the string consisting of the single control character NUL, although the
claimed contract (valid code points and no control characters besides
CR/LF/TAB) demands `false` there. -/
theorem c8_isValidText_counterexample :
    claude.isValidUTF8String [Rune8.valid (Char.ofNat 0)] = true
    ∧ validTextSpec [Rune8.valid (Char.ofNat 0)] = false := by
  decide

/-- C8 amended: the `openai_responses` implementation of `isValidUTF8String`
satisfies the claimed contract (true iff every code point is valid and no
control character other than CR, LF, TAB occurs), while the `claude`
package's implementation checks UTF-8 validity only and ignores control
characters. -/
theorem c8_isValidText_amended (s : GoStr) :
    openai_responses.isValidUTF8String s = validTextSpec s
    ∧ claude.isValidUTF8String s = utf8ValidString s :=
  ⟨oai_isValid_eq_spec s, rfl⟩

lemma cleanBytes_of_valid (j : GoStr) (h : utf8ValidString j = true) :
    claude.cleanInvalidUTF8Bytes j = j := by
  unfold claude.cleanInvalidUTF8Bytes
  rw [List.filter_eq_self]
  intro a ha
  exact List.all_eq_true.mp h a ha

lemma extractSystemMessage_eq (ms : List Message) :
    openai_responses.extractSystemMessage ms =
      (match firstSystemContent ms with
       | none => []
       | some none => goStrOfString "null"
       | some (some (.str s)) => s
       | some (some (.structured j)) => j) := by
  induction ms with
  | nil => rfl
  | cons m rest ih =>
    by_cases h : m.role = "system"
    · cases hmc : m.content with
      | none => simp [openai_responses.extractSystemMessage, firstSystemContent, h, hmc]
      | some c =>
        cases c <;> simp [openai_responses.extractSystemMessage, firstSystemContent, h, hmc]
    · simp [openai_responses.extractSystemMessage, firstSystemContent, h, ih]

lemma extractSystemMessageFromClaude_eq (ms : List Message) :
    claude.extractSystemMessageFromClaude ms =
      (match firstSystemContent ms with
       | none => []
       | some none => goStrOfString "null"
       | some (some (.str s)) =>
         if claude.isValidUTF8String s then s else claude.cleanInvalidUTF8Chars s
       | some (some (.structured j)) =>
         if claude.isValidUTF8Bytes j then j else claude.cleanInvalidUTF8Bytes j) := by
  induction ms with
  | nil => rfl
  | cons m rest ih =>
    by_cases h : m.role = "system"
    · cases hmc : m.content with
      | none => simp [claude.extractSystemMessageFromClaude, firstSystemContent, h, hmc]
      | some c =>
        cases c <;> simp [claude.extractSystemMessageFromClaude, firstSystemContent, h, hmc]
    · simp [claude.extractSystemMessageFromClaude, firstSystemContent, h, ih]

/-- C1 counterexample: the Messages-style non-streaming stop-reason mapper
`extractClaudeStopReason` sends the status `failed` (and `cancelled`) to
`end_turn`, not to the `error` (resp. `stop`) value demanded by the
claimed shared table. -/
theorem c1_status_mapping_counterexample :
    openai_responses.extractClaudeStopReason "failed" = "end_turn"
    ∧ openai_responses.extractClaudeStopReason "failed" ≠ "error"
    ∧ openai_responses.extractClaudeStopReason "cancelled" = "end_turn"
    ∧ openai_responses.extractClaudeStopReason "cancelled" ≠ "stop" := by
  refine ⟨rfl, ?_, rfl, ?_⟩ <;> decide

/-- C1 amended: the two Chat-style mappers agree and realize the claimed
table (completed to stop, incomplete to length, failed to error, cancelled
and everything else to stop); the Messages-style mapper
`extractClaudeStopReason` maps completed to end_turn, incomplete to
max_tokens, and every other status — including failed and cancelled — to
end_turn. -/
theorem c1_status_mapping_amended (status : String) :
    claude.extractFinishReasonFromResponses status
        = openai_responses.extractFinishReason status
    ∧ openai_responses.extractFinishReason status
        = (if status = "completed" then "stop"
           else if status = "incomplete" then "length"
           else if status = "failed" then "error"
           else if status = "cancelled" then "stop"
           else "stop")
    ∧ openai_responses.extractClaudeStopReason status
        = (if status = "completed" then "end_turn"
           else if status = "incomplete" then "max_tokens"
           else "end_turn") :=
  ⟨rfl, rfl, rfl⟩

/-- C5 counterexample: a system message whose plain-string content holds
the control character NUL is returned by `extractSystemMessage` verbatim —
the claimed sanitization (which would remove the NUL) does not happen. -/
theorem c5_system_sanitize_counterexample :
    openai_responses.extractSystemMessage
        [{ role := "system"
           content := some (.str [Rune8.valid (Char.ofNat 0), Rune8.valid 'a']) }]
      = [Rune8.valid (Char.ofNat 0), Rune8.valid 'a']
    ∧ openai_responses.cleanInvalidUTF8Chars [Rune8.valid (Char.ofNat 0), Rune8.valid 'a']
      ≠ [Rune8.valid (Char.ofNat 0), Rune8.valid 'a']
    ∧ claude.extractSystemMessageFromClaude
        [{ role := "system"
           content := some (.str [Rune8.valid (Char.ofNat 0), Rune8.valid 'a']) }]
      = [Rune8.valid (Char.ofNat 0), Rune8.valid 'a'] := by
  refine ⟨rfl, by decide, ?_⟩
  decide

/-- C5 amended: translation extracts the first system-role entry; the
Chat-to-Responses extractor uses plain-string content verbatim and
structured content as its marshalled bytes, both unsanitized; the
Claude-to-Responses extractor sanitizes only when UTF-8 validation fails,
so disallowed control characters inside valid strings pass through, while
its structured path is equivalent to full byte-level sanitization; when no
system-role entry exists both translated requests carry no instructions
field, and a present instructions field is never the empty string. -/
theorem c5_system_extraction_amended (ms : List Message) :
    (firstSystemContent ms = none →
       openai_responses.extractSystemMessage ms = []
       ∧ claude.extractSystemMessageFromClaude ms = [])
    ∧ (∀ s, firstSystemContent ms = some (some (.str s)) →
        openai_responses.extractSystemMessage ms = s)
    ∧ (∀ j, firstSystemContent ms = some (some (.structured j)) →
        openai_responses.extractSystemMessage ms = j)
    ∧ (∀ s, firstSystemContent ms = some (some (.str s)) →
        claude.isValidUTF8String s = true →
        claude.extractSystemMessageFromClaude ms = s)
    ∧ (∀ j, firstSystemContent ms = some (some (.structured j)) →
        claude.extractSystemMessageFromClaude ms = claude.cleanInvalidUTF8Bytes j)
    ∧ (∀ req up rr, req.messages = ms → firstSystemContent ms = none →
        claude.ClaudeMessagesToResponsesRequest (some req) up = .ok rr →
        rr.instructions = none)
    ∧ (∀ req up rr, req.messages = ms → firstSystemContent ms = none →
        openai_responses.ChatCompletionsToResponsesRequest (some req) up = .ok rr →
        rr.instructions = none)
    ∧ (∀ req up rr s, req.messages = ms →
        claude.ClaudeMessagesToResponsesRequest (some req) up = .ok rr →
        rr.instructions = some s → s ≠ []) := by
  refine ⟨?_, ?_, ?_, ?_, ?_, ?_, ?_, ?_⟩
  · intro h
    rw [extractSystemMessage_eq, extractSystemMessageFromClaude_eq, h]
    exact ⟨rfl, rfl⟩
  · intro s h
    rw [extractSystemMessage_eq, h]
  · intro j h
    rw [extractSystemMessage_eq, h]
  · intro s h hv
    rw [extractSystemMessageFromClaude_eq, h]
    simp [hv]
  · intro j h
    rw [extractSystemMessageFromClaude_eq, h]
    by_cases hv : claude.isValidUTF8Bytes j = true
    · simp only [hv, if_true]
      exact (cleanBytes_of_valid j hv).symm
    · simp [hv]
  · intro req up rr hmsgs hnone hok
    have hex : claude.extractSystemMessageFromClaude req.messages = [] := by
      rw [hmsgs, extractSystemMessageFromClaude_eq, hnone]
    simp only [claude.ClaudeMessagesToResponsesRequest] at hok
    by_cases hm : req.model = ""
    · simp [hm] at hok
    · simp only [hm, if_false] at hok
      cases hcv : claude.convertClaudeMessagesToInputs req.messages with
      | error e => rw [hcv] at hok; simp at hok
      | ok inputs =>
        rw [hcv] at hok
        simp only [Except.ok.injEq] at hok
        rw [← hok]
        simp [hex]
  · intro req up rr hmsgs hnone hok
    have hex : openai_responses.extractSystemMessage req.messages = [] := by
      rw [hmsgs, extractSystemMessage_eq, hnone]
    simp only [openai_responses.ChatCompletionsToResponsesRequest] at hok
    by_cases hm : req.model = ""
    · simp [hm] at hok
    · simp only [hm, if_false] at hok
      cases hcv : openai_responses.convertMessagesToInputs req.messages with
      | error e => rw [hcv] at hok; simp at hok
      | ok inputs =>
        rw [hcv] at hok
        simp only [Except.ok.injEq] at hok
        rw [← hok]
        simp [hex]
  · intro req up rr s hmsgs hok hsome
    simp only [claude.ClaudeMessagesToResponsesRequest] at hok
    by_cases hm : req.model = ""
    · simp [hm] at hok
    · simp only [hm, if_false] at hok
      cases hcv : claude.convertClaudeMessagesToInputs req.messages with
      | error e => rw [hcv] at hok; simp at hok
      | ok inputs =>
        rw [hcv] at hok
        simp only [Except.ok.injEq] at hok
        rw [← hok] at hsome
        by_cases hX : claude.extractSystemMessageFromClaude req.messages = []
        · simp [hX] at hsome
        · simp only [hX, if_false] at hsome
          simp only [Option.some.injEq] at hsome
          rw [← hsome]
          exact hX

/-- C4 counterexample: a nil payload makes the Claude-channel smart router
return the input error to its caller — there is no fallback to native
handling for this input, contrary to the claim that translation failures
fall back to the native handler. -/
theorem c4_router_nil_counterexample :
    claude.ConvertOpenAIRequest "claude-3-opus" "gpt-5" none
      = claude.RouterResult.error ConvError.nilRequest
    ∧ (claude.ConvertOpenAIRequest "claude-3-opus" "gpt-5" none).isNative = false :=
  ⟨rfl, rfl⟩

/-- C4 amended: a nil payload fails translation with the input error, and
both routers return that error to the caller rather than falling back;
when the smart-routing translation of a non-nil request fails, the
Claude-channel router falls back to the native Claude conversion of the
original request (a local, synchronous path); the Responses-channel
adaptor's Claude router has no fallback and propagates translation
errors. -/
theorem c4_router_amended :
    (∀ up, claude.ClaudeMessagesToResponsesRequest none up = .error .nilRequest)
    ∧ (∀ origin up, claude.ConvertOpenAIRequest origin up none
        = claude.RouterResult.error ConvError.nilRequest)
    ∧ (∀ origin up r e, claude.shouldRouteToResponses origin = true →
        claude.ClaudeMessagesToResponsesRequest (some r) up = .error e →
        claude.ConvertOpenAIRequest origin up (some r) = claude.RouterResult.native r)
    ∧ (∀ translate, openai_responses.ConvertClaudeRequest translate none
        = .error .nilRequest) := by
  refine ⟨fun up => rfl, fun origin up => rfl, ?_, fun translate => rfl⟩
  intro origin up r e hroute hfail
  simp only [claude.ConvertOpenAIRequest, hroute, if_true, hfail]

/-- C4 witness: with the routed model name `claude-3-opus` and a request
whose model field is empty, translation fails and the router yields the
native fallback carrying the original request. -/
theorem c4_router_amended_witness :
    claude.ConvertOpenAIRequest "claude-3-opus" "gpt-5"
        (some { model := "", stream := false, messages := [],
                maxTokens := 0, maxCompletionTokens := 0 })
      = claude.RouterResult.native
          { model := "", stream := false, messages := [],
            maxTokens := 0, maxCompletionTokens := 0 } :=
  c4_router_amended.2.2.1 "claude-3-opus" "gpt-5"
    { model := "", stream := false, messages := [],
      maxTokens := 0, maxCompletionTokens := 0 }
    ConvError.emptyModel rfl rfl

lemma inner_foldl_eq (ty : String) (content : List ResponsesOutputContent) (a : String) :
    content.foldl (fun a ci => if ci.type = ty then a ++ ci.text else a) a
      = a ++ blockTextConcat ty content := by
  induction content generalizing a with
  | nil => simp [blockTextConcat]
  | cons ci rest ih =>
    by_cases h : ci.type = ty
    · simp only [List.foldl_cons, blockTextConcat, h, if_true, ih, String.append_assoc]
    · simp only [List.foldl_cons, blockTextConcat, h, if_false, ih]
      simp

lemma outer_foldl_eq (ty : String) (output : List ResponsesOutput) (acc : String) :
    output.foldl
      (fun acc item =>
        if item.type = "message" ∧ item.role = "assistant" then
          item.content.foldl (fun a ci => if ci.type = ty then a ++ ci.text else a) acc
        else acc)
      acc
      = acc ++ assistantTextConcat ty output := by
  induction output generalizing acc with
  | nil => simp [assistantTextConcat]
  | cons i rest ih =>
    rw [List.foldl_cons]
    by_cases h : i.type = "message" ∧ i.role = "assistant"
    · rw [if_pos h, inner_foldl_eq, ih]
      simp only [assistantTextConcat, if_pos h, String.append_assoc]
    · rw [if_neg h, ih]
      simp only [assistantTextConcat, if_neg h]
      simp

/-- C7 counterexample: the current assemblers accept only the `output_text`
type tag, so a textual block tagged `text` contributes nothing, while the
claimed union of textual tags would contribute its text. -/
theorem c7_content_extraction_counterexample :
    openai_responses.extractContentFromOutput
        [{ type := "message", role := "assistant"
           content := [{ type := "text", text := "hi" }] }] = ""
    ∧ claude.extractContentFromOutput
        [{ type := "message", role := "assistant"
           content := [{ type := "text", text := "hi" }] }] = ""
    ∧ extractContentSpec
        [{ type := "message", role := "assistant"
           content := [{ type := "text", text := "hi" }] }] = "hi" := by
  refine ⟨rfl, rfl, ?_⟩
  simp [extractContentSpec, blockTextUnionConcat]

/-- C7 amended: each non-streaming assembler concatenates, in order, the
text of the content blocks of exactly one textual type tag inside
assistant-role message items — `output_text` for the current
`openai_responses` and `claude` assemblers, `text` for the older
duplicated copy — with non-assistant items, non-message items and blocks
of any other type (including the respective other textual tag)
contributing nothing. -/
theorem c7_content_extraction_amended (output : List ResponsesOutput) :
    openai_responses.extractContentFromOutput output
        = assistantTextConcat "output_text" output
    ∧ claude.extractContentFromOutput output = assistantTextConcat "output_text" output
    ∧ openai_responses.legacy.extractContentFromOutput output
        = assistantTextConcat "text" output := by
  refine ⟨?_, ?_, ?_⟩
  · have h := outer_foldl_eq "output_text" output ""
    simpa [openai_responses.extractContentFromOutput] using h
  · have h := outer_foldl_eq "output_text" output ""
    simpa [claude.extractContentFromOutput] using h
  · have h := outer_foldl_eq "text" output ""
    simpa [openai_responses.legacy.extractContentFromOutput] using h

/-- C3: the shared stream-end reconciliation keeps non-zero backend
completion tokens; replaces zero completion tokens by the external
tokenizer count when text was accumulated; falls back to the
request-context prompt count when prompt is zero and completion non-zero;
keeps a non-zero prompt; always returns total = prompt + completion; and
ignores whatever total the backend reported. -/
theorem c3_usage_reconciliation (f : String → Int) (p : Int) (t : String) (u : Usage) :
    (u.completionTokens ≠ 0 →
      (reconcileUsage f p t u).completionTokens = u.completionTokens)
    ∧ (u.completionTokens = 0 → t ≠ "" →
      (reconcileUsage f p t u).completionTokens = f t)
    ∧ (u.promptTokens = 0 → (reconcileUsage f p t u).completionTokens ≠ 0 →
      (reconcileUsage f p t u).promptTokens = p)
    ∧ (u.promptTokens ≠ 0 → (reconcileUsage f p t u).promptTokens = u.promptTokens)
    ∧ (reconcileUsage f p t u).totalTokens
        = (reconcileUsage f p t u).promptTokens + (reconcileUsage f p t u).completionTokens
    ∧ (∀ backendTotal, reconcileUsage f p t { u with totalTokens := backendTotal }
        = reconcileUsage f p t u) := by
  refine ⟨?_, ?_, ?_, ?_, ?_, ?_⟩
  · intro h
    simp only [reconcileUsage]
    split_ifs <;> simp_all
  · intro h ht
    simp only [reconcileUsage]
    split_ifs <;> simp_all
  · intro hp hc
    simp only [reconcileUsage] at hc ⊢
    split_ifs at hc ⊢ <;> simp_all
  · intro hp
    simp only [reconcileUsage]
    split_ifs <;> simp_all
  · simp [reconcileUsage]
  · intro backendTotal
    simp only [reconcileUsage]
    split_ifs <;> simp_all

/-- C3 witness: with zero backend completion tokens, accumulated text "ab",
a tokenizer counting 4 and a context prompt count of 9, reconciliation
yields completion 4, prompt 9 and total 13. -/
theorem c3_usage_reconciliation_witness :
    (reconcileUsage (fun _ => 4) 9 "ab"
        { promptTokens := 0, completionTokens := 0, totalTokens := 99 }).completionTokens = 4
    ∧ (reconcileUsage (fun _ => 4) 9 "ab"
        { promptTokens := 0, completionTokens := 0, totalTokens := 99 }).promptTokens = 9 :=
  ⟨(c3_usage_reconciliation (fun _ => 4) 9 "ab"
      { promptTokens := 0, completionTokens := 0, totalTokens := 99 }).2.1 rfl (by decide),
   (c3_usage_reconciliation (fun _ => 4) 9 "ab"
      { promptTokens := 0, completionTokens := 0, totalTokens := 99 }).2.2.1 rfl (by decide)⟩

/-- C6 counterexample: a `response.completed` terminal event carrying a
full snapshot produces no frame at all from the Chat-style stream mapper,
and a `response.done` terminal event is ignored by the handler's usage
capture (the counter stays at its zero initial value), contrary to the
claim that every done/completed terminal event both emits the terminating
frame and has its usage captured. -/
theorem c6_terminal_event_counterexample :
    openai_responses.ConvertResponsesStreamToChatStream
        { type := "response.completed"
          response := some { id := "resp_1", status := "completed"
                             usage := some { inputTokens := 5, outputTokens := 2
                                             totalTokens := 7 } } }
        "" "m"
      = none
    ∧ (openai_responses.chatStreamStep "m" {}
        { type := "response.done"
          response := some { id := "resp_1", status := "completed"
                             usage := some { inputTokens := 5, outputTokens := 2
                                             totalTokens := 7 } } }).1.usage
      = ({} : Usage) := by
  exact ⟨rfl, rfl⟩

/-- C6 amended: the Chat-style mapper emits its single terminating choice
(with the finish reason mapped from the snapshot status, and the snapshot
usage attached) exactly for `response.done` events with a snapshot, and
emits nothing for `response.completed`; the handler's running usage
counter captures terminal usage exactly from `response.completed` events
with a snapshot, and is left unchanged by `response.done`. -/
theorem c6_terminal_stream_amended (e : ResponsesStreamResponse)
    (r : ResponsesSnapshot) (rid model : String) (s : ChatStreamState) :
    (e.type = "response.done" → e.response = some r →
      openai_responses.ConvertResponsesStreamToChatStream e rid model
        = some { id := if r.id ≠ "" then r.id else rid
                 object := "chat.completion.chunk"
                 created := r.createdAt
                 model := model
                 choices := [{ index := 0, delta := {}
                               finishReason :=
                                 some (openai_responses.extractFinishReason r.status) }]
                 usage := r.usage })
    ∧ (e.type = "response.completed" →
      openai_responses.ConvertResponsesStreamToChatStream e rid model = none)
    ∧ (e.type = "response.completed" → e.response = some r →
      (openai_responses.chatStreamStep model s e).1.usage
        = openai_responses.chatCaptureUsage s.usage r.usage)
    ∧ (e.type = "response.done" →
      (openai_responses.chatStreamStep model s e).1.usage = s.usage) := by
  refine ⟨?_, ?_, ?_, ?_⟩
  · intro h hr
    simp [openai_responses.ConvertResponsesStreamToChatStream, h, hr]
  · intro h
    simp [openai_responses.ConvertResponsesStreamToChatStream, h]
  · intro h hr
    simp [openai_responses.chatStreamStep, h, hr]
  · intro h
    simp [openai_responses.chatStreamStep, h, ResponsesOutputTypeItemDone]

/-- C6 witness: a concrete `response.done` event with status `incomplete`
and usage 5/2/7 yields exactly one terminating choice with finish reason
mapped from the status and the snapshot usage attached. -/
theorem c6_terminal_stream_amended_witness :
    openai_responses.ConvertResponsesStreamToChatStream
        { type := "response.done"
          response := some { id := "r1", createdAt := 3, status := "incomplete"
                             usage := some { inputTokens := 5, outputTokens := 2
                                             totalTokens := 7 } } }
        "r0" "m"
      = some { id := if ("r1" : String) ≠ "" then "r1" else "r0"
               object := "chat.completion.chunk"
               created := 3
               model := "m"
               choices := [{ index := 0, delta := {}
                             finishReason :=
                               some (openai_responses.extractFinishReason "incomplete") }]
               usage := some { inputTokens := 5, outputTokens := 2, totalTokens := 7 } } :=
  (c6_terminal_stream_amended
    { type := "response.done"
      response := some { id := "r1", createdAt := 3, status := "incomplete"
                         usage := some { inputTokens := 5, outputTokens := 2
                                         totalTokens := 7 } } }
    { id := "r1", createdAt := 3, status := "incomplete"
      usage := some { inputTokens := 5, outputTokens := 2, totalTokens := 7 } }
    "r0" "m" {}).1 rfl rfl

/-- C2: on the event sequence created, output_item.added(assistant),
delta "Hi", delta " there", done(completed, usage 5/2/7), the
Messages-style stream handler emits, in order and nothing else:
message_start, content_block_start(0), delta "Hi", delta " there",
content_block_stop(0), message_delta(end_turn), message_stop; and the
reconciled usage is prompt 5, completion 2, total 7 — for every tokenizer
and every context prompt count. -/
theorem c2_messages_stream_scenario (f : String → Int) (p : Int) :
    openai_responses.ResponsesToClaudeStreamHandler f p "m"
      [ { type := "response.created", response := some { id := "resp_1" } }
      , { type := "response.output_item.added"
          item := some { type := "message", role := "assistant" } }
      , { type := "response.output_text.delta", delta := "Hi" }
      , { type := "response.output_text.delta", delta := " there" }
      , { type := "response.done"
          response := some { id := "resp_1", status := "completed"
                             usage := some { inputTokens := 5, outputTokens := 2
                                             totalTokens := 7 } } } ]
      = ( [ ClaudeFrame.messageStart "m"
          , ClaudeFrame.contentBlockStart 0
          , ClaudeFrame.contentBlockDelta 0 "Hi"
          , ClaudeFrame.contentBlockDelta 0 " there"
          , ClaudeFrame.contentBlockStop 0
          , ClaudeFrame.messageDelta "end_turn" 2
          , ClaudeFrame.messageStop ]
        , { promptTokens := 5, completionTokens := 2, totalTokens := 7 } ) := by
  rfl

/-- C10: a recognized text-delta event whose delta string is empty is
silently dropped: both pure stream converters return no frame, the
Messages-style handler step (once the start markers are out) emits
nothing and leaves the accumulated text unchanged, and the Chat-style
handler step emits nothing and leaves the accumulated text unchanged. -/
theorem c10_empty_delta_dropped (e : ResponsesStreamResponse) (rid model : String)
    (cs : ClaudeStreamState) (s : ChatStreamState) (hdelta : e.delta = "") :
    (e.type = "response.output_text.delta" →
      openai_responses.ConvertResponsesStreamToChatStream e rid model = none)
    ∧ (e.type = "response.output_text.delta" ∨ e.type = "response.content_part.delta" →
      claude.ConvertResponsesStreamToClaudeStream e rid model = none)
    ∧ (e.type = "response.output_text.delta" → cs.messageStartSent = true →
      (openai_responses.claudeStreamStep model cs e).2 = []
      ∧ (openai_responses.claudeStreamStep model cs e).1.responseText = cs.responseText)
    ∧ (e.type = "response.output_text.delta" →
      (openai_responses.chatStreamStep model s e).2 = []
      ∧ (openai_responses.chatStreamStep model s e).1.responseText = s.responseText) := by
  refine ⟨?_, ?_, ?_, ?_⟩
  · intro h
    simp [openai_responses.ConvertResponsesStreamToChatStream, h, hdelta]
  · intro h
    rcases h with h | h <;>
      simp [claude.ConvertResponsesStreamToClaudeStream, h, hdelta]
  · intro h hsent
    constructor
    · simp [openai_responses.claudeStreamStep, h, hdelta, hsent]
    · simp [openai_responses.claudeStreamStep, h, hdelta, hsent]
  · intro h
    constructor
    · simp [openai_responses.chatStreamStep,
        openai_responses.ConvertResponsesStreamToChatStream, h, hdelta,
        ResponsesOutputTypeItemDone]
    · simp [openai_responses.chatStreamStep, h, hdelta, ResponsesOutputTypeItemDone]

/-- C10 witness: the concrete empty-delta event produces no frame from
either converter and no frame from the Messages-style handler step in a
started stream. -/
theorem c10_empty_delta_dropped_witness :
    openai_responses.ConvertResponsesStreamToChatStream
        { type := "response.output_text.delta" } "r" "m" = none
    ∧ claude.ConvertResponsesStreamToClaudeStream
        { type := "response.output_text.delta" } "r" "m" = none
    ∧ (openai_responses.claudeStreamStep "m" { messageStartSent := true }
        { type := "response.output_text.delta" }).2 = [] :=
  ⟨(c10_empty_delta_dropped { type := "response.output_text.delta" } "r" "m" {} {} rfl).1 rfl,
   (c10_empty_delta_dropped { type := "response.output_text.delta" } "r" "m" {} {} rfl).2.1
     (Or.inl rfl),
   ((c10_empty_delta_dropped { type := "response.output_text.delta" } "r" "m"
       { messageStartSent := true } {} rfl).2.2.1 rfl rfl).1⟩

/-- C5 witness: a message list with no system-role entry yields the empty
extracted system text from both extractors. -/
theorem c5_system_extraction_amended_witness :
    openai_responses.extractSystemMessage [{ role := "user", content := none }] = []
    ∧ claude.extractSystemMessageFromClaude [{ role := "user", content := none }] = [] :=
  (c5_system_extraction_amended [{ role := "user", content := none }]).1 rfl
